import Mathlib

/-!
Verification development for the switchbrew_bevy crate: a shallow embedding
of its platform/config, display, and input modules, with theorems checking
the specification's claims against the embedded code.
-/

namespace SwitchBrew

/-! ## Platform and configuration (src/platform.rs) -/

/-- Target platform for the game (enum Platform). -/
inductive Platform where
  | Desktop
  | SwitchDocked
  | SwitchHandheld
deriving DecidableEq

/-- Platform::current(): compile-time detection. The `switchFeature` flag models
the cargo feature "switch": with it the build targets SwitchDocked, without it
Desktop. -/
def Platform.current (switchFeature : Bool) : Platform :=
  if switchFeature then Platform.SwitchDocked else Platform.Desktop

/-- Platform::resolution(): native resolution for this platform. -/
def Platform.resolution : Platform → Nat × Nat
  | Platform.Desktop => (1920, 1080)
  | Platform.SwitchDocked => (1920, 1080)
  | Platform.SwitchHandheld => (1280, 720)

/-- Display mode for the Switch (enum DisplayMode). -/
inductive DisplayMode where
  | Docked
  | Handheld
  | Tabletop
deriving DecidableEq, Fintype

/-- DisplayMode::resolution(): Handheld and Tabletop share the 720p branch. -/
def DisplayMode.resolution : DisplayMode → Nat × Nat
  | DisplayMode.Docked => (1920, 1080)
  | DisplayMode.Handheld => (1280, 720)
  | DisplayMode.Tabletop => (1280, 720)

/-- Configuration resource (struct SwitchConfig). -/
structure SwitchConfig where
  platform : Platform
  display_mode : DisplayMode
  resolution : Nat × Nat
  target_fps : Nat
  show_perf_overlay : Bool
deriving DecidableEq

/-- impl Default for SwitchConfig: platform from Platform::current(), default
display mode (Docked), resolution derived from the platform. -/
def SwitchConfig.default (switchFeature : Bool) : SwitchConfig :=
  let platform := Platform.current switchFeature
  { platform := platform
    display_mode := DisplayMode.Docked
    resolution := platform.resolution
    target_fps := 60
    show_perf_overlay := false }

/-- SwitchConfig::docked(): functional-record-update over Default::default(). -/
def SwitchConfig.docked (switchFeature : Bool) : SwitchConfig :=
  { SwitchConfig.default switchFeature with
      platform := Platform.SwitchDocked
      display_mode := DisplayMode.Docked
      resolution := (1920, 1080) }

/-- SwitchConfig::handheld(): functional-record-update over Default::default(). -/
def SwitchConfig.handheld (switchFeature : Bool) : SwitchConfig :=
  { SwitchConfig.default switchFeature with
      platform := Platform.SwitchHandheld
      display_mode := DisplayMode.Handheld
      resolution := (1280, 720) }

/-- SwitchConfig::with_fps(): replaces only the target frame rate. -/
def SwitchConfig.with_fps (c : SwitchConfig) (fps : Nat) : SwitchConfig :=
  { c with target_fps := fps }

/-- The SwitchConfig values built through the crate's named constructor API:
Default::default(), docked(), handheld(), and with_fps() chained on such a
value. All fields of the Rust struct are public, so arbitrary struct literals
are representable as well; this predicate deliberately covers only the
named-constructor subset, not everything constructible. -/
inductive SwitchConfig.Reachable : SwitchConfig → Prop where
  | mk_default (b : Bool) : SwitchConfig.Reachable (SwitchConfig.default b)
  | mk_docked (b : Bool) : SwitchConfig.Reachable (SwitchConfig.docked b)
  | mk_handheld (b : Bool) : SwitchConfig.Reachable (SwitchConfig.handheld b)
  | mk_with_fps (c : SwitchConfig) (fps : Nat) :
      SwitchConfig.Reachable c → SwitchConfig.Reachable (SwitchConfig.with_fps c fps)

/-! ## Window and display management (src/window.rs) -/

/-- The slice of the host engine's Window resource this crate touches: the
window resolution, set from u32 pairs cast to f32 (modelled as rationals,
which represent these small integer values exactly). -/
structure Window where
  resolution : ℚ × ℚ
deriving DecidableEq

/-- Display configuration resource (struct SwitchDisplay). -/
structure SwitchDisplay where
  mode : DisplayMode
  resolution : Nat × Nat
  vsync : Bool
deriving DecidableEq

/-- impl Default for SwitchDisplay. -/
def SwitchDisplay.default : SwitchDisplay :=
  { mode := DisplayMode.Docked, resolution := (1920, 1080), vsync := true }

/-- SwitchDisplay::handheld(). -/
def SwitchDisplay.handheld : SwitchDisplay :=
  { mode := DisplayMode.Handheld, resolution := (1280, 720), vsync := true }

/-- SwitchDisplay::aspect_ratio() = width / height, modelled over ℚ (the f32
operands are small integers, represented exactly). -/
def SwitchDisplay.aspectRatioQ (d : SwitchDisplay) : ℚ :=
  (d.resolution.1 : ℚ) / (d.resolution.2 : ℚ)

/-- System handle_display_mode_change: `changed` models Res::is_changed() on
the SwitchConfig resource. On unchanged it returns early; on changed it copies
display_mode and resolution into the display state and pushes the resolution
to every window. -/
def handle_display_mode_change (changed : Bool) (config : SwitchConfig)
    (display : SwitchDisplay) (windows : List Window) : SwitchDisplay × List Window :=
  if !changed then (display, windows)
  else
    ({ display with mode := config.display_mode, resolution := config.resolution },
     windows.map fun w =>
       { w with resolution := ((config.resolution.1 : ℚ), (config.resolution.2 : ℚ)) })

/-- The SwitchDisplay values produced by the crate itself: the two named
constructors, plus the display-change system run on a config built via the
named constructor API. All fields of the Rust struct are public, so arbitrary
struct literals (and system runs on hand-written configs) are representable
as well; this predicate deliberately covers only the crate-produced subset. -/
inductive SwitchDisplay.Reachable : SwitchDisplay → Prop where
  | mk_default : SwitchDisplay.Reachable SwitchDisplay.default
  | mk_handheld : SwitchDisplay.Reachable SwitchDisplay.handheld
  | mk_step (ch : Bool) (c : SwitchConfig) (d : SwitchDisplay) (ws : List Window) :
      SwitchConfig.Reachable c → SwitchDisplay.Reachable d →
      SwitchDisplay.Reachable (handle_display_mode_change ch c d ws).1

/-! ## Input handling (src/input.rs) -/

/-- Nintendo Switch button mappings (enum SwitchButton). -/
inductive SwitchButton where
  | A | B | X | Y
  | L | R | ZL | ZR
  | LeftStick | RightStick
  | Plus | Minus | Home | Capture
  | DPadUp | DPadDown | DPadLeft | DPadRight
  | SL | SR
deriving DecidableEq, Fintype

/-- The host engine's standard gamepad button enumeration (bevy GamepadButton). -/
inductive GamepadButton where
  | South | East | North | West
  | C | Z
  | LeftTrigger | LeftTrigger2 | RightTrigger | RightTrigger2
  | Select | Start | Mode
  | LeftThumb | RightThumb
  | DPadUp | DPadDown | DPadLeft | DPadRight
  | Other (n : Nat)
deriving DecidableEq

/-- SwitchButton::to_gamepad_button(): map to standard gamepad button. -/
def SwitchButton.to_gamepad_button : SwitchButton → GamepadButton
  | SwitchButton.A => GamepadButton.East
  | SwitchButton.B => GamepadButton.South
  | SwitchButton.X => GamepadButton.North
  | SwitchButton.Y => GamepadButton.West
  | SwitchButton.L => GamepadButton.LeftTrigger
  | SwitchButton.R => GamepadButton.RightTrigger
  | SwitchButton.ZL => GamepadButton.LeftTrigger2
  | SwitchButton.ZR => GamepadButton.RightTrigger2
  | SwitchButton.LeftStick => GamepadButton.LeftThumb
  | SwitchButton.RightStick => GamepadButton.RightThumb
  | SwitchButton.Plus => GamepadButton.Start
  | SwitchButton.Minus => GamepadButton.Select
  | SwitchButton.Home => GamepadButton.Mode
  | SwitchButton.Capture => GamepadButton.Mode
  | SwitchButton.DPadUp => GamepadButton.DPadUp
  | SwitchButton.DPadDown => GamepadButton.DPadDown
  | SwitchButton.DPadLeft => GamepadButton.DPadLeft
  | SwitchButton.DPadRight => GamepadButton.DPadRight
  | SwitchButton.SL => GamepadButton.LeftTrigger
  | SwitchButton.SR => GamepadButton.RightTrigger

/-- The keyboard keys the crate inspects, plus representatives of keys outside
the key-to-button table (bevy KeyCode, restricted to the relevant variants). -/
inductive KeyCode where
  | KeyZ | KeyX | KeyA | KeyS | KeyQ | KeyW
  | Digit1 | Digit2
  | Enter | Backspace
  | ArrowUp | ArrowDown | ArrowLeft | ArrowRight
  | KeyI | KeyK | KeyJ | KeyD | KeyL
  | Space | Escape
deriving DecidableEq

/-- SwitchButton::from_keycode(): the fixed key-to-button table; keys outside
the table map to none. -/
def SwitchButton.from_keycode : KeyCode → Option SwitchButton
  | KeyCode.KeyZ => some SwitchButton.B
  | KeyCode.KeyX => some SwitchButton.A
  | KeyCode.KeyA => some SwitchButton.Y
  | KeyCode.KeyS => some SwitchButton.X
  | KeyCode.KeyQ => some SwitchButton.L
  | KeyCode.KeyW => some SwitchButton.R
  | KeyCode.Digit1 => some SwitchButton.ZL
  | KeyCode.Digit2 => some SwitchButton.ZR
  | KeyCode.Enter => some SwitchButton.Plus
  | KeyCode.Backspace => some SwitchButton.Minus
  | KeyCode.ArrowUp => some SwitchButton.DPadUp
  | KeyCode.ArrowDown => some SwitchButton.DPadDown
  | KeyCode.ArrowLeft => some SwitchButton.DPadLeft
  | KeyCode.ArrowRight => some SwitchButton.DPadRight
  | _ => none

/-- A 2D vector of f32 components, modelled over ℝ (bevy Vec2). -/
structure Vec2 where
  x : ℝ
  y : ℝ

/-- Vec2::ZERO. -/
noncomputable def Vec2.zero : Vec2 := { x := 0, y := 0 }

/-- Vec2::length() = sqrt(x² + y²). -/
noncomputable def Vec2.len (v : Vec2) : ℝ := Real.sqrt (v.x ^ 2 + v.y ^ 2)

/-- Vec2::normalize() = self / self.length(). -/
noncomputable def Vec2.normalize (v : Vec2) : Vec2 :=
  { x := v.x / Vec2.len v, y := v.y / Vec2.len v }

/-- Vec2::clamp_length_max(): if length² exceeds max², rescale to length max;
otherwise return the vector unchanged (glam implementation). -/
noncomputable def Vec2.clamp_length_max (v : Vec2) (m : ℝ) : Vec2 :=
  let length_sq := v.x ^ 2 + v.y ^ 2
  if length_sq > m * m then
    { x := m * (v.x / Real.sqrt length_sq), y := m * (v.y / Real.sqrt length_sq) }
  else v

/-- Resource tracking Switch input state (struct SwitchInput): stick vectors
and the held / pressed-this-tick / released-this-tick button sets. -/
structure SwitchInput where
  left_stick : Vec2
  right_stick : Vec2
  pressed : Finset SwitchButton
  just_pressed : Finset SwitchButton
  just_released : Finset SwitchButton

/-- SwitchInput::movement(): left stick nudged ±1 per held d-pad direction,
then magnitude-clamped to 1.0. -/
noncomputable def SwitchInput.movement (s : SwitchInput) : Vec2 :=
  let dir := s.left_stick
  let dir := if SwitchButton.DPadUp ∈ s.pressed then { dir with y := dir.y + 1 } else dir
  let dir := if SwitchButton.DPadDown ∈ s.pressed then { dir with y := dir.y - 1 } else dir
  let dir := if SwitchButton.DPadLeft ∈ s.pressed then { dir with x := dir.x - 1 } else dir
  let dir := if SwitchButton.DPadRight ∈ s.pressed then { dir with x := dir.x + 1 } else dir
  Vec2.clamp_length_max dir 1

/-- The keyboard state the system reads each tick: the newly-pressed and
newly-released key sets (iterated in some order) and the currently-held
query of the host's ButtonInput resource. -/
structure Keyboard where
  get_just_pressed : List KeyCode
  get_just_released : List KeyCode
  isDown : KeyCode → Bool

/-- One attached gamepad's analog axis readings; Gamepad::get returns an
optional value and the system substitutes 0.0 when absent. -/
structure Gamepad where
  left_stick_x : Option ℝ
  left_stick_y : Option ℝ
  right_stick_x : Option ℝ
  right_stick_y : Option ℝ

/-- First statements of update_switch_input: clear the two transient sets. -/
def clearTransient (s : SwitchInput) : SwitchInput :=
  { s with just_pressed := ∅, just_released := ∅ }

/-- Body of the just-pressed keyboard loop for one key: a mapped key inserts
its button into the held set and pressed-this-tick; an unmapped key does
nothing. -/
def pressKeyStep (s : SwitchInput) (key : KeyCode) : SwitchInput :=
  match SwitchButton.from_keycode key with
  | some button =>
      { s with pressed := insert button s.pressed
               just_pressed := insert button s.just_pressed }
  | none => s

/-- Body of the just-released keyboard loop for one key: a mapped key is
removed from the held set and inserted into released-this-tick. -/
def releaseKeyStep (s : SwitchInput) (key : KeyCode) : SwitchInput :=
  match SwitchButton.from_keycode key with
  | some button =>
      { s with pressed := s.pressed.erase button
               just_released := insert button s.just_released }
  | none => s

/-- The keyboard-button portion of update_switch_input: clear transient sets,
then fold the just-pressed loop, then the just-released loop. -/
def keyboardButtonPhase (s : SwitchInput) (kb : Keyboard) : SwitchInput :=
  (kb.get_just_released).foldl releaseKeyStep
    ((kb.get_just_pressed).foldl pressKeyStep (clearTransient s))

/-- The keyboard-derived movement vector (WASD or IJKL), each direction
contributing ±1 on an axis. -/
noncomputable def kb_movement (kb : Keyboard) : Vec2 :=
  let m := Vec2.zero
  let m := if kb.isDown KeyCode.KeyW || kb.isDown KeyCode.KeyI then { m with y := m.y + 1 } else m
  let m := if kb.isDown KeyCode.KeyS || kb.isDown KeyCode.KeyK then { m with y := m.y - 1 } else m
  let m := if kb.isDown KeyCode.KeyA || kb.isDown KeyCode.KeyJ then { m with x := m.x - 1 } else m
  let m := if kb.isDown KeyCode.KeyD || kb.isDown KeyCode.KeyL then { m with x := m.x + 1 } else m
  m

/-- Body of the gamepad loop for one gamepad: each stick is overwritten with
the raw axis pair only when the absolute value of at least one of its two
axes exceeds the 0.1 deadzone. -/
noncomputable def gamepadStep (s : SwitchInput) (g : Gamepad) : SwitchInput :=
  let left_x := g.left_stick_x.getD 0
  let left_y := g.left_stick_y.getD 0
  let s := if |left_x| > 0.1 ∨ |left_y| > 0.1 then
      { s with left_stick := { x := left_x, y := left_y } } else s
  let right_x := g.right_stick_x.getD 0
  let right_y := g.right_stick_y.getD 0
  if |right_x| > 0.1 ∨ |right_y| > 0.1 then
    { s with right_stick := { x := right_x, y := right_y } } else s

/-- The gamepad loop over all attached gamepads (last gamepad wins). -/
noncomputable def gamepadPhase (s : SwitchInput) (gps : List Gamepad) : SwitchInput :=
  gps.foldl gamepadStep s

/-- Final statements of update_switch_input: combine keyboard and gamepad for
the left stick. Keyboard movement above the deadzone overwrites the stick
with its normalization; otherwise a left stick below the deadzone is zeroed. -/
noncomputable def resolveLeftStick (s : SwitchInput) (kbm : Vec2) : SwitchInput :=
  if Vec2.len kbm > 0.1 then { s with left_stick := Vec2.normalize kbm }
  else if Vec2.len s.left_stick < 0.1 then { s with left_stick := Vec2.zero }
  else s

/-- System update_switch_input, one tick: keyboard button phase, gamepad
phase, then left-stick resolution against the keyboard movement vector. -/
noncomputable def update_switch_input (s : SwitchInput) (kb : Keyboard)
    (gps : List Gamepad) : SwitchInput :=
  resolveLeftStick (gamepadPhase (keyboardButtonPhase s kb) gps) (kb_movement kb)

/-! ## Helper lemmas -/

/-- Every config built via the named constructors carries one of the two
enumerated resolutions. -/
lemma SwitchConfig.reachable_resolution {c : SwitchConfig} (h : SwitchConfig.Reachable c) :
    c.resolution = (1920, 1080) ∨ c.resolution = (1280, 720) := by
  induction h with
  | mk_default b => cases b <;> simp [SwitchConfig.default, Platform.current, Platform.resolution]
  | mk_docked b => simp [SwitchConfig.docked]
  | mk_handheld b => simp [SwitchConfig.handheld]
  | mk_with_fps c fps _ ih => simpa [SwitchConfig.with_fps] using ih

/-- The length of a vector is nonnegative. -/
lemma Vec2.len_nonneg (v : Vec2) : 0 ≤ Vec2.len v := Real.sqrt_nonneg _

/-- Normalizing a vector of non-zero length yields a unit-length vector. -/
lemma Vec2.len_normalize (v : Vec2) (h : Vec2.len v ≠ 0) :
    Vec2.len (Vec2.normalize v) = 1 := by
  have h0 : (0 : ℝ) ≤ v.x ^ 2 + v.y ^ 2 := by positivity
  have hs : Real.sqrt (v.x ^ 2 + v.y ^ 2) ^ 2 = v.x ^ 2 + v.y ^ 2 := Real.sq_sqrt h0
  have hne : v.x ^ 2 + v.y ^ 2 ≠ 0 := by
    intro hz
    apply h
    simp [Vec2.len, hz]
  simp only [Vec2.normalize, Vec2.len]
  rw [div_pow, div_pow, div_add_div_same, hs, div_self hne, Real.sqrt_one]

/-- Clamping to maximum length 1 yields a vector of length at most 1. -/
lemma Vec2.len_clamp_le_one (v : Vec2) : Vec2.len (Vec2.clamp_length_max v 1) ≤ 1 := by
  by_cases h : v.x ^ 2 + v.y ^ 2 > 1
  · have h0 : (0 : ℝ) ≤ v.x ^ 2 + v.y ^ 2 := by positivity
    have hs : Real.sqrt (v.x ^ 2 + v.y ^ 2) ^ 2 = v.x ^ 2 + v.y ^ 2 := Real.sq_sqrt h0
    have hne : v.x ^ 2 + v.y ^ 2 ≠ 0 := by nlinarith
    simp only [Vec2.clamp_length_max, Vec2.len, one_mul]
    rw [if_pos h, div_pow, div_pow, div_add_div_same, hs, div_self hne, Real.sqrt_one]
  · simp only [Vec2.clamp_length_max, Vec2.len, one_mul]
    rw [if_neg h]
    calc Real.sqrt (v.x ^ 2 + v.y ^ 2) ≤ Real.sqrt 1 := Real.sqrt_le_sqrt (by linarith)
      _ = 1 := Real.sqrt_one

/-! ## Claim theorems -/

/-- C1 counterexample: every field of the Rust SwitchConfig struct is public,
so the struct-literal constructor is part of the public API and a value with
display_mode Docked and resolution 1280x720 exists — the combination the
claim says cannot exist is representable. -/
theorem C1_invalid_combination_representable :
    (SwitchConfig.mk Platform.SwitchDocked DisplayMode.Docked (1280, 720) 60
        false).display_mode = DisplayMode.Docked ∧
    (SwitchConfig.mk Platform.SwitchDocked DisplayMode.Docked (1280, 720) 60
        false).resolution ≠ (1920, 1080) ∧
    (SwitchConfig.mk Platform.SwitchDocked DisplayMode.Docked (1280, 720) 60
        false).resolution ≠
      DisplayMode.resolution
        (SwitchConfig.mk Platform.SwitchDocked DisplayMode.Docked (1280, 720) 60
          false).display_mode := by
  decide

/-- C1 (amended): every SwitchConfig built through the crate's named
constructor API — Default::default(), docked(), handheld(), with_fps chains,
under either build feature — has its resolution field equal to the resolution
determined by its display-mode enumeration and equal to its platform's
resolution. The invariant is constructor coherence only: the public
struct-literal constructor can still pair any fields. -/
theorem C1_constructor_config_resolution_coherent (c : SwitchConfig)
    (h : SwitchConfig.Reachable c) :
    c.resolution = DisplayMode.resolution c.display_mode ∧
    c.resolution = Platform.resolution c.platform := by
  induction h with
  | mk_default b => cases b <;> decide
  | mk_docked b => cases b <;> decide
  | mk_handheld b => cases b <;> decide
  | mk_with_fps c fps _ ih => simpa [SwitchConfig.with_fps] using ih

/-- C1 witness: the docked constructor is in the named-constructor subset and
satisfies the coherence invariant. -/
theorem C1_constructor_config_resolution_coherent_witness :
    SwitchConfig.Reachable (SwitchConfig.docked false) ∧
    (SwitchConfig.docked false).resolution =
      DisplayMode.resolution (SwitchConfig.docked false).display_mode :=
  ⟨SwitchConfig.Reachable.mk_docked false,
   (C1_constructor_config_resolution_coherent _ (SwitchConfig.Reachable.mk_docked false)).1⟩

/-- C2 counterexample: every field of the Rust SwitchDisplay struct is
public, so a display state with resolution height 0 is directly
representable, and the display-change system blindly copies the raw public
resolution of a hand-written config, propagating a zero height through the
crate's own step — division by zero in aspect_ratio() is not structurally
prevented for every constructible value. -/
theorem C2_zero_height_display_representable :
    (SwitchDisplay.mk DisplayMode.Docked (1920, 0) true).resolution.2 = 0 ∧
    (handle_display_mode_change true
        (SwitchConfig.mk Platform.SwitchDocked DisplayMode.Docked (1920, 0) 60 false)
        SwitchDisplay.default []).1.resolution.2 = 0 :=
  ⟨rfl, rfl⟩

/-- C2 (amended): every SwitchDisplay produced by the crate itself — the two
named constructors, or the display-change system fed a config built via the
named constructor API — has a non-zero resolution height, so for these values
the width / height division computed by aspect_ratio() never divides by zero:
the quotient genuinely satisfies quotient * height = width. The guarantee
does not extend to struct-literal values or hand-written configs. -/
theorem C2_aspect_denominator_nonzero (d : SwitchDisplay)
    (h : SwitchDisplay.Reachable d) :
    d.resolution.2 ≠ 0 ∧
    SwitchDisplay.aspectRatioQ d * (d.resolution.2 : ℚ) = (d.resolution.1 : ℚ) := by
  have hne : d.resolution.2 ≠ 0 := by
    induction h with
    | mk_default => decide
    | mk_handheld => decide
    | mk_step ch c d' ws hc _ ih =>
        cases ch with
        | false => simpa [handle_display_mode_change] using ih
        | true =>
            rcases SwitchConfig.reachable_resolution hc with h1 | h1 <;>
              simp [handle_display_mode_change, h1]
  refine ⟨hne, ?_⟩
  have hq : (d.resolution.2 : ℚ) ≠ 0 := by exact_mod_cast hne
  unfold SwitchDisplay.aspectRatioQ
  exact div_mul_cancel₀ _ hq

/-- C2 witness: the handheld display state is crate-produced and has non-zero
height. -/
theorem C2_aspect_denominator_nonzero_witness :
    SwitchDisplay.Reachable SwitchDisplay.handheld ∧
    SwitchDisplay.handheld.resolution.2 ≠ 0 :=
  ⟨SwitchDisplay.Reachable.mk_handheld,
   (C2_aspect_denominator_nonzero _ SwitchDisplay.Reachable.mk_handheld).1⟩

/-- C4: the display-manager step is change-detection gated: on an unchanged
tick it returns the display state and windows untouched; on a changed tick it
copies display_mode and resolution from the config into the display state and
writes the new resolution to every window. -/
theorem C4_display_change_gate (changed : Bool) (config : SwitchConfig)
    (display : SwitchDisplay) (windows : List Window) :
    (changed = false →
      handle_display_mode_change changed config display windows = (display, windows)) ∧
    (changed = true →
      (handle_display_mode_change changed config display windows).1 =
        { display with mode := config.display_mode, resolution := config.resolution } ∧
      (handle_display_mode_change changed config display windows).2 =
        windows.map fun w =>
          { w with resolution := ((config.resolution.1 : ℚ), (config.resolution.2 : ℚ)) }) := by
  constructor
  · rintro rfl
    simp [handle_display_mode_change]
  · rintro rfl
    exact ⟨rfl, rfl⟩

/-- C4 witness: an unchanged tick leaves a concrete display state and window
list untouched, and a changed tick copies the handheld configuration. -/
theorem C4_display_change_gate_witness :
    handle_display_mode_change false (SwitchConfig.docked false) SwitchDisplay.default [] =
      (SwitchDisplay.default, []) ∧
    (handle_display_mode_change true (SwitchConfig.handheld false) SwitchDisplay.default []).1 =
      { SwitchDisplay.default with
          mode := (SwitchConfig.handheld false).display_mode
          resolution := (SwitchConfig.handheld false).resolution } :=
  ⟨(C4_display_change_gate false (SwitchConfig.docked false) SwitchDisplay.default []).1 rfl,
   ((C4_display_change_gate true (SwitchConfig.handheld false) SwitchDisplay.default []).2 rfl).1⟩

/-- C7: DisplayMode::resolution returns one of exactly two distinct pairs:
1920x1080 for Docked and 1280x720 for both Handheld and Tabletop. -/
theorem C7_display_mode_resolution :
    DisplayMode.resolution DisplayMode.Docked = (1920, 1080) ∧
    DisplayMode.resolution DisplayMode.Handheld = (1280, 720) ∧
    DisplayMode.resolution DisplayMode.Tabletop = (1280, 720) ∧
    ((1920, 1080) : Nat × Nat) ≠ (1280, 720) ∧
    ∀ m : DisplayMode,
      DisplayMode.resolution m = (1920, 1080) ∨ DisplayMode.resolution m = (1280, 720) := by
  refine ⟨rfl, rfl, rfl, by decide, ?_⟩
  intro m
  cases m <;> simp [DisplayMode.resolution]

/-- C8: the named constructors docked() and handheld() are fully specified,
overriding platform, display_mode and resolution while preserving the
defaults target_fps = 60 and show_perf_overlay = false; chaining with_fps
replaces only target_fps. -/
theorem C8_named_constructor_fields (b : Bool) :
    SwitchConfig.docked b =
      { platform := Platform.SwitchDocked, display_mode := DisplayMode.Docked,
        resolution := (1920, 1080), target_fps := 60, show_perf_overlay := false } ∧
    SwitchConfig.handheld b =
      { platform := Platform.SwitchHandheld, display_mode := DisplayMode.Handheld,
        resolution := (1280, 720), target_fps := 60, show_perf_overlay := false } ∧
    ∀ fps : Nat,
      SwitchConfig.with_fps (SwitchConfig.docked b) fps =
        { platform := Platform.SwitchDocked, display_mode := DisplayMode.Docked,
          resolution := (1920, 1080), target_fps := fps, show_perf_overlay := false } ∧
      SwitchConfig.with_fps (SwitchConfig.handheld b) fps =
        { platform := Platform.SwitchHandheld, display_mode := DisplayMode.Handheld,
          resolution := (1280, 720), target_fps := fps, show_perf_overlay := false } := by
  cases b <;> exact ⟨rfl, rfl, fun fps => ⟨rfl, rfl⟩⟩

/-- C9: to_gamepad_button is not injective: Home and Capture both map to
Mode, SL maps to LeftTrigger like L, and SR maps to RightTrigger like R. -/
theorem C9_to_gamepad_button_not_injective :
    SwitchButton.to_gamepad_button SwitchButton.Home =
      SwitchButton.to_gamepad_button SwitchButton.Capture ∧
    SwitchButton.Home ≠ SwitchButton.Capture ∧
    SwitchButton.to_gamepad_button SwitchButton.SL =
      SwitchButton.to_gamepad_button SwitchButton.L ∧
    SwitchButton.SL ≠ SwitchButton.L ∧
    SwitchButton.to_gamepad_button SwitchButton.SR =
      SwitchButton.to_gamepad_button SwitchButton.R ∧
    SwitchButton.SR ≠ SwitchButton.R ∧
    SwitchButton.to_gamepad_button SwitchButton.Home = GamepadButton.Mode ∧
    SwitchButton.to_gamepad_button SwitchButton.SL = GamepadButton.LeftTrigger ∧
    SwitchButton.to_gamepad_button SwitchButton.SR = GamepadButton.RightTrigger ∧
    ¬ Function.Injective SwitchButton.to_gamepad_button := by
  refine ⟨rfl, by decide, rfl, by decide, rfl, by decide, rfl, rfl, rfl, ?_⟩
  intro hinj
  have h := hinj (show SwitchButton.to_gamepad_button SwitchButton.Home =
      SwitchButton.to_gamepad_button SwitchButton.Capture from rfl)
  exact absurd h (by decide)

/-- C10: the display-manager step never modifies the vsync field, whether or
not the configuration changed. -/
theorem C10_vsync_never_modified (changed : Bool) (config : SwitchConfig)
    (display : SwitchDisplay) (windows : List Window) :
    (handle_display_mode_change changed config display windows).1.vsync = display.vsync := by
  cases changed <;> simp [handle_display_mode_change]

/-- C5: for every input state, including adversarial combinations of an
arbitrary left stick with all four d-pad buttons held, the movement() vector
has magnitude at most 1. -/
theorem C5_movement_magnitude_le_one (s : SwitchInput) :
    Vec2.len (SwitchInput.movement s) ≤ 1 := by
  unfold SwitchInput.movement
  exact Vec2.len_clamp_le_one _

/-- C3: in every tick, the primary stick is resolved as follows: a keyboard
movement vector above the 0.1 deadzone overwrites the left stick with its
unit-length normalization; otherwise a left stick below the deadzone after
the gamepad phase is zeroed; and a single gamepad leaves the left stick
unmodified when neither raw axis exceeds 0.1 in absolute value. -/
theorem C3_left_stick_resolution :
    (∀ (s : SwitchInput) (kb : Keyboard) (gps : List Gamepad),
        Vec2.len (kb_movement kb) > 0.1 →
        (update_switch_input s kb gps).left_stick = Vec2.normalize (kb_movement kb) ∧
        Vec2.len (update_switch_input s kb gps).left_stick = 1) ∧
    (∀ (s : SwitchInput) (kb : Keyboard) (gps : List Gamepad),
        ¬ Vec2.len (kb_movement kb) > 0.1 →
        Vec2.len (gamepadPhase (keyboardButtonPhase s kb) gps).left_stick < 0.1 →
        (update_switch_input s kb gps).left_stick = Vec2.zero) ∧
    (∀ (s : SwitchInput) (g : Gamepad),
        ¬ |g.left_stick_x.getD 0| > 0.1 → ¬ |g.left_stick_y.getD 0| > 0.1 →
        (gamepadStep s g).left_stick = s.left_stick) := by
  refine ⟨?_, ?_, ?_⟩
  · intro s kb gps h
    have hne : Vec2.len (kb_movement kb) ≠ 0 := by
      intro hz
      rw [hz] at h
      norm_num at h
    constructor
    · simp [update_switch_input, resolveLeftStick, h]
    · simp [update_switch_input, resolveLeftStick, h, Vec2.len_normalize _ hne]
  · intro s kb gps h1 h2
    simp [update_switch_input, resolveLeftStick, h1, h2]
  · intro s g hx hy
    have hor : ¬ (|g.left_stick_x.getD 0| > 0.1 ∨ |g.left_stick_y.getD 0| > 0.1) := by
      rintro (h | h)
      · exact hx h
      · exact hy h
    simp only [gamepadStep]
    rw [if_neg hor]
    split <;> rfl

/-- Concrete keyboard with only the W key held and no key edges. -/
def kbW : Keyboard :=
  { get_just_pressed := []
    get_just_released := []
    isDown := fun k => decide (k = KeyCode.KeyW) }

/-- Concrete keyboard with no key held and no key edges. -/
def kbNone : Keyboard :=
  { get_just_pressed := []
    get_just_released := []
    isDown := fun _ => false }

/-- Concrete input state with zero sticks and empty button sets. -/
noncomputable def inputZero : SwitchInput :=
  { left_stick := Vec2.zero
    right_stick := Vec2.zero
    pressed := ∅
    just_pressed := ∅
    just_released := ∅ }

/-- Concrete gamepad reporting left-stick axes (0.05, 0.05), both below the
deadzone. -/
noncomputable def gLow : Gamepad :=
  { left_stick_x := some 0.05
    left_stick_y := some 0.05
    right_stick_x := none
    right_stick_y := none }

/-- C3 witness: with only W held the keyboard vector (0,1) exceeds the
deadzone and the left stick becomes its normalization; with nothing held the
zero stick is zeroed; the (0.05, 0.05) gamepad leaves the stick unmodified. -/
theorem C3_left_stick_resolution_witness :
    (Vec2.len (kb_movement kbW) > 0.1 ∧
      (update_switch_input inputZero kbW []).left_stick = Vec2.normalize (kb_movement kbW)) ∧
    ((¬ Vec2.len (kb_movement kbNone) > 0.1) ∧
      Vec2.len (gamepadPhase (keyboardButtonPhase inputZero kbNone) []).left_stick < 0.1 ∧
      (update_switch_input inputZero kbNone []).left_stick = Vec2.zero) ∧
    ((¬ |gLow.left_stick_x.getD 0| > 0.1) ∧
      (gamepadStep inputZero gLow).left_stick = inputZero.left_stick) := by
  have hW : Vec2.len (kb_movement kbW) > 0.1 := by
    have h1 : kb_movement kbW = { x := 0, y := 0 + 1 } := rfl
    rw [h1]
    simp only [Vec2.len]
    norm_num [Real.sqrt_one]
  have hN : ¬ Vec2.len (kb_movement kbNone) > 0.1 := by
    have h1 : kb_movement kbNone = { x := 0, y := 0 } := rfl
    rw [h1]
    simp only [Vec2.len]
    norm_num [Real.sqrt_zero]
  have hS : Vec2.len (gamepadPhase (keyboardButtonPhase inputZero kbNone) []).left_stick < 0.1 := by
    have h1 : (gamepadPhase (keyboardButtonPhase inputZero kbNone) []).left_stick =
        { x := 0, y := 0 } := rfl
    rw [h1]
    simp only [Vec2.len]
    norm_num [Real.sqrt_zero]
  have hx : ¬ |gLow.left_stick_x.getD 0| > 0.1 := by
    simp only [gLow, Option.getD_some, not_lt]
    rw [abs_le]
    constructor <;> norm_num
  have hy : ¬ |gLow.left_stick_y.getD 0| > 0.1 := by
    simp only [gLow, Option.getD_some, not_lt]
    rw [abs_le]
    constructor <;> norm_num
  exact ⟨⟨hW, (C3_left_stick_resolution.1 inputZero kbW [] hW).1⟩,
    ⟨hN, hS, C3_left_stick_resolution.2.1 inputZero kbNone [] hN hS⟩,
    ⟨hx, C3_left_stick_resolution.2.2 inputZero gLow hx hy⟩⟩

/-- C6: the input step clears pressed-this-tick and released-this-tick first;
a newly-pressed mapped key inserts its button into the held set and
pressed-this-tick; a newly-released mapped key removes its button from the
held set and inserts it into released-this-tick; a key outside the table
changes none of the three sets. -/
theorem C6_keyboard_phase :
    (∀ s : SwitchInput,
        (clearTransient s).just_pressed = ∅ ∧
        (clearTransient s).just_released = ∅ ∧
        (clearTransient s).pressed = s.pressed ∧
        (clearTransient s).left_stick = s.left_stick ∧
        (clearTransient s).right_stick = s.right_stick) ∧
    (∀ (s : SwitchInput) (k : KeyCode) (b : SwitchButton),
        SwitchButton.from_keycode k = some b →
        pressKeyStep s k = { s with pressed := insert b s.pressed
                                    just_pressed := insert b s.just_pressed }) ∧
    (∀ (s : SwitchInput) (k : KeyCode),
        SwitchButton.from_keycode k = none → pressKeyStep s k = s) ∧
    (∀ (s : SwitchInput) (k : KeyCode) (b : SwitchButton),
        SwitchButton.from_keycode k = some b →
        releaseKeyStep s k = { s with pressed := s.pressed.erase b
                                      just_released := insert b s.just_released }) ∧
    (∀ (s : SwitchInput) (k : KeyCode),
        SwitchButton.from_keycode k = none → releaseKeyStep s k = s) ∧
    (∀ (s : SwitchInput) (kb : Keyboard),
        keyboardButtonPhase s kb =
          (kb.get_just_released).foldl releaseKeyStep
            ((kb.get_just_pressed).foldl pressKeyStep (clearTransient s))) := by
  refine ⟨fun s => ⟨rfl, rfl, rfl, rfl, rfl⟩, ?_, ?_, ?_, ?_, fun s kb => rfl⟩
  · intro s k b h
    simp [pressKeyStep, h]
  · intro s k h
    simp [pressKeyStep, h]
  · intro s k b h
    simp [releaseKeyStep, h]
  · intro s k h
    simp [releaseKeyStep, h]

/-- C6 witness: KeyZ maps to button B and populates the held and
pressed-this-tick sets; KeyI is outside the table and changes nothing. -/
theorem C6_keyboard_phase_witness :
    SwitchButton.from_keycode KeyCode.KeyZ = some SwitchButton.B ∧
    pressKeyStep inputZero KeyCode.KeyZ =
      { inputZero with pressed := insert SwitchButton.B inputZero.pressed
                       just_pressed := insert SwitchButton.B inputZero.just_pressed } ∧
    SwitchButton.from_keycode KeyCode.KeyI = none ∧
    pressKeyStep inputZero KeyCode.KeyI = inputZero ∧
    releaseKeyStep inputZero KeyCode.KeyZ =
      { inputZero with pressed := inputZero.pressed.erase SwitchButton.B
                       just_released := insert SwitchButton.B inputZero.just_released } ∧
    releaseKeyStep inputZero KeyCode.KeyI = inputZero :=
  ⟨rfl,
   C6_keyboard_phase.2.1 inputZero KeyCode.KeyZ SwitchButton.B rfl,
   rfl,
   C6_keyboard_phase.2.2.1 inputZero KeyCode.KeyI rfl,
   C6_keyboard_phase.2.2.2.1 inputZero KeyCode.KeyZ SwitchButton.B rfl,
   C6_keyboard_phase.2.2.2.2.1 inputZero KeyCode.KeyI rfl⟩

end SwitchBrew
